import Mathlib

/-!
# Peer mesh and shared-clock synchronization: a shallow embedding

A shallow embedding of the peer mesh formation and distributed clock
synchronization logic of `src/src/App.tsx`, together with theorems checking
the specification's claims against it.

Times measured with `Date.now()` (milliseconds) are embedded as `ℤ`; the
motion clock's timestamps and positions (seconds) are embedded as `ℚ`.
-/

namespace SyncDemo

/-! ## Shared motion clock

The application drives a `TimingObject` from the external `timing-object`
npm package; that library's code is not part of the repository sources, so
its `query`/`update` contract is modelled from the spec (§3, §4.1).
-/

/-- Modelled from the spec: the motion clock's stored state vector
(`timing-object` library, not in the repository sources): `{timestamp,
position, velocity, acceleration}` (§3 ClockState). -/
structure ClockState where
  timestamp : ℚ
  position : ℚ
  velocity : ℚ
  acceleration : ℚ
deriving DecidableEq

/-- Modelled from the spec: a partial vector passed to `update`; a field
omitted from an incoming update is `none` (§3). -/
structure ClockVector where
  position : Option ℚ := none
  velocity : Option ℚ := none
  acceleration : Option ℚ := none
deriving DecidableEq

/-- Modelled from the spec: `query()` returns the state extrapolated to the
current instant using constant-acceleration kinematics from the last stored
state (§4.1). -/
def ClockState.query (c : ClockState) (now : ℚ) : ClockState :=
  let d := now - c.timestamp
  { timestamp := now
    position := c.position + c.velocity * d + c.acceleration * d ^ 2 / 2
    velocity := c.velocity + c.acceleration * d
    acceleration := c.acceleration }

/-- Modelled from the spec: `update` merges fields (an omitted field keeps
its value as of the update instant), and `timestamp` is always reset to the
update's effective instant so extrapolation is continuous at the moment of
update (§3). -/
def ClockState.update (c : ClockState) (now : ℚ) (v : ClockVector) : ClockState :=
  let cur := c.query now
  { timestamp := now
    position := v.position.getD cur.position
    velocity := v.velocity.getD cur.velocity
    acceleration := v.acceleration.getD cur.acceleration }

/-- The full vector carried by a sync message, as applied via
`timingObject.current.update(data.state)` (App.tsx line 245). -/
def ClockVector.ofState (s : ClockState) : ClockVector :=
  { position := some s.position, velocity := some s.velocity, acceleration := some s.acceleration }

/-- The timing object initialisation (App.tsx lines 286-291). -/
def initTimingObject (t0 : ℚ) : ClockState :=
  { timestamp := t0, position := 0, velocity := 1, acceleration := 0 }

/-! ## Data model (App.tsx lines 15-32 and 106-112) -/

/-- `PEER_DISCONNECT_LINGER` (App.tsx line 16), in milliseconds. -/
def PEER_DISCONNECT_LINGER : ℤ := 8000

/-- The 10s staleness bound used by the cleanup filter (App.tsx line 462),
in milliseconds. -/
def STALE_WINDOW : ℤ := 10000

/-- The peer-id namespace tag of this application. -/
def menuSyncTag : String := "MENUSYNC_"

/-- JS `pid.startsWith('MENUSYNC_')` (App.tsx lines 303 and 338), written
char-structurally so the kernel can evaluate it. -/
def startsWithTag (s : String) : Bool :=
  menuSyncTag.toList.isPrefixOf s.toList

/-- Connection direction label. -/
inductive Direction where
  | incoming
  | outgoing
deriving DecidableEq

/-- `PeerLatency` (App.tsx lines 19-26), the per-peer record. -/
structure PeerLatency where
  id : String
  latency : ℤ
  lastUpdate : ℤ
  direction : Direction
  disconnected : Bool
  disconnectTime : Option ℤ
deriving DecidableEq

/-- `TimingUpdate` (App.tsx lines 28-32), the last applied external sync. -/
structure TimingUpdate where
  timestamp : ℤ
  peerId : String
  position : ℚ
deriving DecidableEq

/-- The message envelopes exchanged over a data connection (§4.5, App.tsx
lines 219-267). -/
inductive Msg where
  | ping (time : ℤ)
  | pong (time : ℤ)
  | syncRequest
  | syncResponse (state : ClockState) (sourcePeerId : String) (timestamp : ℤ)
  | syncBroadcast (state : ClockState) (sourcePeerId : String) (timestamp : ℤ)
deriving DecidableEq

/-- A peer data channel: the remote peer id plus an identity for the
underlying channel object (two attempts to the same peer are distinct
objects). -/
structure Conn where
  peer : String
  handle : ℕ
deriving DecidableEq

/-- The value stored per peer id in the connection table: the channel and
its direction tag (App.tsx line 108). -/
structure ConnInfo where
  handle : ℕ
  direction : Direction
deriving DecidableEq

/-- The externally visible effects of a handler: messages sent on a
channel, channels closed, console log lines. -/
inductive Action where
  | send (handle : ℕ) (msg : Msg)
  | close (handle : ℕ)
  | log (line : String)
deriving DecidableEq

/-- The node's mutable state touched by the mesh logic: `timingObject`,
`connections`, `peerLatencies`, `lastTimingUpdate`. -/
structure NodeState where
  localId : String
  timingObject : Option ClockState
  connections : List (String × ConnInfo)
  peerLatencies : List PeerLatency
  lastTimingUpdate : Option TimingUpdate
deriving DecidableEq

/-! ## The JS `Map` holding `connections.current` -/

/-- JS `Map.get`. -/
def mapGet (m : List (String × ConnInfo)) (k : String) : Option ConnInfo :=
  (m.find? (fun e => e.1 == k)).map (fun e => e.2)

/-- JS `Map.set`: replaces in place when the key is present, otherwise
appends. -/
def mapSet (m : List (String × ConnInfo)) (k : String) (v : ConnInfo) :
    List (String × ConnInfo) :=
  if m.any (fun e => e.1 == k) then
    m.map (fun e => if e.1 == k then (k, v) else e)
  else
    m ++ [(k, v)]

/-- JS `Map.delete`. -/
def mapDelete (m : List (String × ConnInfo)) (k : String) : List (String × ConnInfo) :=
  m.filter (fun e => e.1 != k)

/-- The JS `Map` invariant on the association-list embedding: keys are
pairwise distinct, i.e. at most one entry per peer id. -/
def KeysNodup (m : List (String × ConnInfo)) : Prop :=
  (m.map (fun e => e.1)).Nodup

instance decidableKeysNodup (m : List (String × ConnInfo)) : Decidable (KeysNodup m) :=
  inferInstanceAs (Decidable (List.Nodup _))

/-! ## Log lines -/

def closingUnregisteredLog (p : String) : String :=
  "Closing connection to unregistered peer: " ++ p

def closingExistingLog (p : String) : String :=
  "Closing existing connection to: " ++ p

def peerDisconnectedLog (p : String) : String :=
  "Peer disconnected: " ++ p

def disconnectingUnregisteredLog (p : String) : String :=
  "Disconnecting from unregistered peer: " ++ p

/-! ## Operations (App.tsx lines 159-470) -/

/-- `checkPeerRegistration` (App.tsx lines 175-184). The directory fetch
plus JSON parse is modelled by its outcome: `Except.ok` with the parsed
peer list, or `Except.error` for any transport/parse failure (which the
`catch` turns into `false`). -/
def checkPeerRegistration (fetchResult : Except String (List String)) (peerId : String) : Bool :=
  match fetchResult with
  | Except.ok peers => peers.contains peerId
  | Except.error _ => false

/-- `setupConnection` (App.tsx lines 186-199): the part that runs before
any `open`/`data`/`close` handler can fire — the registration gate, then
teardown of a previous table entry for the same peer. -/
def setupConnection (fetchResult : Except String (List String)) (st : NodeState)
    (conn : Conn) : NodeState × List Action :=
  if !(checkPeerRegistration fetchResult conn.peer) then
    (st, [Action.log (closingUnregisteredLog conn.peer), Action.close conn.handle])
  else
    match mapGet st.connections conn.peer with
    | some existing =>
        ({ st with connections := mapDelete st.connections conn.peer },
         [Action.log (closingExistingLog conn.peer), Action.close existing.handle])
    | none => (st, [])

/-- The `conn.on('open')` handler (App.tsx lines 201-221): insert the table
entry and the peer record, then send the initial ping and sync-request. -/
def connOpen (st : NodeState) (conn : Conn) (direction : Direction) (now : ℤ) :
    NodeState × List Action :=
  ({ st with
      connections := mapSet st.connections conn.peer { handle := conn.handle, direction := direction }
      peerLatencies :=
        st.peerLatencies.filter (fun p => p.id != conn.peer) ++
          [{ id := conn.peer, latency := 0, lastUpdate := now, direction := direction,
             disconnected := false, disconnectTime := none }] },
   [Action.send conn.handle (Msg.ping now), Action.send conn.handle Msg.syncRequest])

/-- The `conn.on('close')` handler (App.tsx lines 269-282). -/
def connClose (st : NodeState) (conn : Conn) (now : ℤ) : NodeState × List Action :=
  ({ st with
      connections := mapDelete st.connections conn.peer
      peerLatencies := st.peerLatencies.map (fun p =>
        if p.id == conn.peer then { p with disconnected := true, disconnectTime := some now }
        else p) },
   [Action.log (peerDisconnectedLog conn.peer)])

/-- The `conn.on('data')` handler (App.tsx lines 223-267). `now` is
`Date.now()` in milliseconds; `tnow` is the motion clock's instant at which
the handler's `query`/`update` calls take effect. -/
def handleData (st : NodeState) (conn : Conn) (data : Msg) (now : ℤ) (tnow : ℚ) :
    NodeState × List Action :=
  match data with
  | Msg.ping time => (st, [Action.send conn.handle (Msg.pong time)])
  | Msg.pong time =>
      ({ st with
          peerLatencies := st.peerLatencies.map (fun p =>
            if p.id == conn.peer then { p with latency := now - time, lastUpdate := now }
            else p) },
       [])
  | Msg.syncRequest =>
      match st.timingObject with
      | none => (st, [])
      | some c =>
          (st, [Action.send conn.handle (Msg.syncResponse (c.query tnow) st.localId now)])
  | Msg.syncResponse s src ts =>
      match st.timingObject with
      | none => (st, [])
      | some c =>
          ({ st with
              timingObject := some (c.update tnow (ClockVector.ofState s))
              lastTimingUpdate := some
                { timestamp := ts
                  peerId := if src == "" then conn.peer else src
                  position := s.position } },
           (st.connections.filter (fun e => e.2.handle != conn.handle)).map
             (fun e => Action.send e.2.handle (Msg.syncBroadcast s src ts)))
  | Msg.syncBroadcast s src ts =>
      match st.timingObject with
      | none => (st, [])
      | some c =>
          ({ st with
              timingObject := some (c.update tnow (ClockVector.ofState s))
              lastTimingUpdate := some
                { timestamp := ts
                  peerId := if src == "" then conn.peer else src
                  position := s.position } },
           [])

/-- `broadcastTimingState` (App.tsx lines 159-173). -/
def broadcastTimingState (st : NodeState) (now : ℤ) (tnow : ℚ) : List Action :=
  match st.timingObject with
  | none => []
  | some c =>
      st.connections.map (fun e =>
        Action.send e.2.handle (Msg.syncBroadcast (c.query tnow) st.localId now))

/-- One 5s `syncInterval` tick (App.tsx lines 324-328). -/
def syncIntervalTick (st : NodeState) (now : ℤ) (tnow : ℚ) : List Action :=
  if st.connections.length > 0 then broadcastTimingState st now tnow else []

/-- The `peer.on('connection')` tie-break (App.tsx lines 337-348): `true`
iff the incoming attempt from `remoteId` is accepted (passed on to
`setupConnection`) rather than closed. The second test embeds the code's
`conn.peer > peerId` rejection. -/
def acceptIncoming (localId remoteId : String) : Bool :=
  if !(startsWithTag remoteId) then false
  else if localId < remoteId then false
  else true

/-- Outcome of the two symmetric concurrent connection attempts between `a`
and `b`: the attempt `x → y` survives exactly when the receiver `y` accepts
the remote `x`; each surviving edge is listed as `(initiator, acceptor)`. -/
def concurrentConnect (a b : String) : List (String × String) :=
  (if acceptIncoming b a then [(a, b)] else []) ++
    (if acceptIncoming a b then [(b, a)] else [])

/-- The direction label a surviving edge carries at each endpoint:
`outgoing` on the initiator (App.tsx line 311), `incoming` on the acceptor
(App.tsx line 351). -/
def edgeDirectionAt (edge : String × String) (node : String) : Option Direction :=
  if node = edge.1 then some Direction.outgoing
  else if node = edge.2 then some Direction.incoming
  else none

/-- One `discoveryInterval` tick (App.tsx lines 301-315): the ids that get
an outbound connect attempt, given the directory listing. -/
def discoveryConnectTargets (st : NodeState) (peerList : List String) : List String :=
  (peerList.filter (fun pid => startsWithTag pid)).filter
    (fun newPeerId => newPeerId != st.localId && !(mapGet st.connections newPeerId).isSome)

/-- The cleanup filter predicate (App.tsx lines 457-463): `true` keeps the
record. JS truthiness is embedded exactly: `p.disconnectTime && …` is falsy
when `disconnectTime` is absent or `0`, and `conn && …` is falsy when the
table has no entry. -/
def cleanupKeep (now : ℤ) (connections : List (String × ConnInfo)) (p : PeerLatency) : Bool :=
  if p.disconnected then
    match p.disconnectTime with
    | some dt => dt != 0 && decide (now - dt < PEER_DISCONNECT_LINGER)
    | none => false
  else
    (mapGet connections p.id).isSome && decide (now - p.lastUpdate < STALE_WINDOW)

/-- One 1s cleanup tick (App.tsx lines 453-467). -/
def cleanupTick (st : NodeState) (now : ℤ) : NodeState :=
  { st with peerLatencies := st.peerLatencies.filter (cleanupKeep now st.connections) }

/-- The keep-rule for non-disconnected records as the spec words it (§3
removal clause (b) negated): kept when a live connection backs it OR it was
refreshed within the staleness window. -/
def specKeepNonDisconnected (now : ℤ) (connections : List (String × ConnInfo))
    (p : PeerLatency) : Bool :=
  (mapGet connections p.id).isSome || decide (now - p.lastUpdate < STALE_WINDOW)

/-- The `useEffect` teardown (App.tsx lines 413-424): the final
`update({velocity: 0})` on the motion clock. -/
def shutdownTeardown (st : NodeState) (tnow : ℚ) : NodeState :=
  { st with
      timingObject := st.timingObject.map (fun c => c.update tnow { velocity := some 0 }) }

/-- The 10s revalidation tick's handling of one connected peer found no
longer registered (App.tsx lines 431-445). -/
def disconnectUnregistered (st : NodeState) (peerId : String) (now : ℤ) :
    NodeState × List Action :=
  match mapGet st.connections peerId with
  | none => (st, [])
  | some connInfo =>
      ({ st with
          connections := mapDelete st.connections peerId
          peerLatencies := st.peerLatencies.map (fun p =>
            if p.id == peerId then { p with disconnected := true, disconnectTime := some now }
            else p) },
       [Action.log (disconnectingUnregisteredLog peerId), Action.close connInfo.handle])

/-! ## Concrete fixtures used by witnesses and counterexamples -/

def peerA : String := "MENUSYNC_aaa"

def peerB : String := "MENUSYNC_bbb"

def errMsg : String := "network unreachable"

def fetchFail : Except String (List String) := Except.error errMsg

def connA : Conn := { peer := peerA, handle := 0 }

def connB : Conn := { peer := peerB, handle := 7 }

def exampleState : NodeState :=
  { localId := peerB
    timingObject := some (initTimingObject 0)
    connections := [(peerA, { handle := 0, direction := Direction.incoming })]
    peerLatencies := []
    lastTimingUpdate := none }

/-! ## Theorems -/

/-- Claim C7: `checkPeerRegistration` returns `true` exactly when the
directory listing contains the queried peer id, and `false` on any
transport or parse error of the directory call (fail-closed); being a total
function of the fetch outcome it never throws to its caller. -/
theorem checkPeerRegistration_spec :
    (∀ (peers : List String) (pid : String),
        checkPeerRegistration (Except.ok peers) pid = true ↔ pid ∈ peers) ∧
    (∀ (e : String) (pid : String), checkPeerRegistration (Except.error e) pid = false) := by
  refine ⟨fun peers pid => ?_, fun e pid => rfl⟩
  simp [checkPeerRegistration]

/-- Claim C10: at process start the motion clock is initialised with
position 0, velocity 1 and acceleration 0, so until the first applied
update its queried position equals the elapsed wall-clock time since
startup: it advances at exactly one unit per second. -/
theorem initTimingObject_unit_rate (t0 t d : ℚ) :
    (initTimingObject t0).position = 0 ∧
    (initTimingObject t0).velocity = 1 ∧
    (initTimingObject t0).acceleration = 0 ∧
    ((initTimingObject t0).query t).position = t - t0 ∧
    ((initTimingObject t0).query (t + d)).position =
      ((initTimingObject t0).query t).position + d := by
  refine ⟨rfl, rfl, rfl, ?_, ?_⟩ <;>
    · simp [initTimingObject, ClockState.query]
      try ring

/-- Claim C5: the shutdown teardown issues a final `update({velocity: 0})`
on the motion clock, after which (the clock's acceleration being 0, as it
is everywhere in this application) every subsequent query reports the same
position: the clock no longer advances. -/
theorem shutdown_freezes_clock (st : NodeState) (tnow : ℚ) (c : ClockState)
    (h : st.timingObject = some c) (hacc : c.acceleration = 0) :
    (shutdownTeardown st tnow).timingObject = some (c.update tnow { velocity := some 0 }) ∧
    (c.update tnow { velocity := some 0 }).velocity = 0 ∧
    ∀ t : ℚ, ((c.update tnow { velocity := some 0 }).query t).position =
      (c.update tnow { velocity := some 0 }).position := by
  refine ⟨by simp [shutdownTeardown, h], rfl, fun t => ?_⟩
  simp [ClockState.update, ClockState.query, hacc]

/-- Witness for the shutdown-freeze theorem at a concrete state. -/
theorem shutdown_freezes_clock_witness :
    (shutdownTeardown exampleState 5).timingObject =
      some ((initTimingObject 0).update 5 { velocity := some 0 }) ∧
    ((initTimingObject 0).update 5 { velocity := some 0 }).velocity = 0 ∧
    ∀ t : ℚ, (((initTimingObject 0).update 5 { velocity := some 0 }).query t).position =
      ((initTimingObject 0).update 5 { velocity := some 0 }).position :=
  shutdown_freezes_clock exampleState 5 (initTimingObject 0) rfl rfl

/-- Claim C6: `setupConnection` checks directory registration before any
handler for the new channel is installed; when the check fails the node
state is returned unchanged — no connection-table entry, no peer record,
no teardown of any existing connection — and the only effects are one log
line and closing the offending channel itself. -/
theorem setupConnection_unregistered_rejected (fetchResult : Except String (List String))
    (st : NodeState) (conn : Conn)
    (h : checkPeerRegistration fetchResult conn.peer = false) :
    (setupConnection fetchResult st conn).1 = st ∧
    (setupConnection fetchResult st conn).2 =
      [Action.log (closingUnregisteredLog conn.peer), Action.close conn.handle] := by
  simp [setupConnection, h]

/-- Witness for the unregistered-peer rejection at a concrete state, with
the directory unreachable. -/
theorem setupConnection_unregistered_rejected_witness :
    (setupConnection fetchFail exampleState connB).1 = exampleState ∧
    (setupConnection fetchFail exampleState connB).2 =
      [Action.log (closingUnregisteredLog peerB), Action.close 7] :=
  setupConnection_unregistered_rejected fetchFail exampleState connB rfl

/-- A record marked disconnected at a concrete positive instant. -/
def disconnectedRecord : PeerLatency :=
  { id := peerA, latency := 0, lastUpdate := 0, direction := Direction.incoming,
    disconnected := true, disconnectTime := some 1000 }

/-- Claim C4: a peer record marked `disconnected` at time `t0` is kept by
every cleanup pass that runs strictly before `t0 + PEER_DISCONNECT_LINGER`
(8 seconds) and is removed by any pass that runs at or after that instant.
(`0 < t0` holds for every `Date.now()` value; at `t0 = 0` the code's JS
truthiness test would remove the record at once.) -/
theorem linger_window (now t0 : ℤ) (conns : List (String × ConnInfo)) (p : PeerLatency)
    (hd : p.disconnected = true) (ht : p.disconnectTime = some t0) (hpos : 0 < t0) :
    (now < t0 + PEER_DISCONNECT_LINGER → cleanupKeep now conns p = true) ∧
    (t0 + PEER_DISCONNECT_LINGER ≤ now → cleanupKeep now conns p = false) := by
  have hlin : PEER_DISCONNECT_LINGER = 8000 := rfl
  constructor <;> intro h <;>
    · simp [cleanupKeep, hd, ht]
      omega

/-- Witness for the linger-window theorem at a concrete record and pass. -/
theorem linger_window_witness :
    (2000 < 1000 + PEER_DISCONNECT_LINGER → cleanupKeep 2000 [] disconnectedRecord = true) ∧
    (1000 + PEER_DISCONNECT_LINGER ≤ 2000 → cleanupKeep 2000 [] disconnectedRecord = false) :=
  linger_window 2000 1000 [] disconnectedRecord rfl rfl (by decide)

/-- A non-disconnected record whose last refresh is 10s old. -/
def staleBackedRecord : PeerLatency :=
  { id := peerA, latency := 0, lastUpdate := 0, direction := Direction.incoming,
    disconnected := false, disconnectTime := none }

/-- A connection table backing `peerA`. -/
def backedConnections : List (String × ConnInfo) :=
  [(peerA, { handle := 0, direction := Direction.incoming })]

/-- A node connected to `peerA` whose peer record for `peerA` is 10s stale:
the state on which a received sync message demonstrably fails to refresh
`lastUpdate`. -/
def cexState : NodeState :=
  { localId := peerB
    timingObject := some (initTimingObject 0)
    connections := backedConnections
    peerLatencies := [staleBackedRecord]
    lastTimingUpdate := none }

/-- A second concrete clock state carried by a sync message (defined here
because the C3 counterexample uses it). -/
def syncedState : ClockState :=
  { timestamp := 3, position := 42, velocity := 1, acceleration := 0 }

/-- Counterexample to claim C3 as stated, in both of its failing parts. At
`now = 10000` the non-disconnected record is backed by a live connection
(so the claim — kept when backed by a live connection OR refreshed within
10s — says the cleanup pass keeps it), yet the code's filter removes it:
the code requires the live connection AND freshness. And the claim's
premise that `lastUpdate` is refreshed by received sync messages is false:
handling a `sync-response` or `sync-broadcast` leaves the peer-record list
— in particular the stale `lastUpdate = 0` — completely unchanged; only
the `pong` branch writes `lastUpdate`. -/
theorem cleanup_removes_backed_but_stale :
    staleBackedRecord.disconnected = false ∧
    (mapGet backedConnections staleBackedRecord.id).isSome = true ∧
    specKeepNonDisconnected 10000 backedConnections staleBackedRecord = true ∧
    cleanupKeep 10000 backedConnections staleBackedRecord = false ∧
    (handleData cexState connA (Msg.syncResponse syncedState peerB 900) 901 4).1.peerLatencies =
      [staleBackedRecord] ∧
    (handleData cexState connA (Msg.syncBroadcast syncedState peerB 900) 901 4).1.peerLatencies =
      [staleBackedRecord] := by
  decide

/-- Claim C3 (amended): a non-disconnected record is kept by the cleanup
pass exactly when a live connection backs it AND `now - lastUpdate < 10s`
(equivalently, it is removed exactly when no live connection backs it or it
was not refreshed within the staleness window), where `lastUpdate` is
refreshed by probe echoes only: the `pong` branch rewrites the record's
`lastUpdate` to the receipt instant, while a received `sync-response` or
`sync-broadcast` leaves every peer record unchanged. -/
theorem cleanupKeep_nonDisconnected_iff (now pnow ts : ℤ) (tnow : ℚ)
    (conns : List (String × ConnInfo)) (p : PeerLatency) (st : NodeState) (conn : Conn)
    (time : ℤ) (s : ClockState) (src : String) (h : p.disconnected = false) :
    (cleanupKeep now conns p = true ↔
      ((mapGet conns p.id).isSome = true ∧ now - p.lastUpdate < STALE_WINDOW)) ∧
    ((handleData st conn (Msg.pong time) pnow tnow).1.peerLatencies =
      st.peerLatencies.map (fun q =>
        if q.id == conn.peer then { q with latency := pnow - time, lastUpdate := pnow }
        else q)) ∧
    ((handleData st conn (Msg.syncResponse s src ts) pnow tnow).1.peerLatencies =
      st.peerLatencies) ∧
    ((handleData st conn (Msg.syncBroadcast s src ts) pnow tnow).1.peerLatencies =
      st.peerLatencies) := by
  refine ⟨by simp [cleanupKeep, h], by simp [handleData], ?_, ?_⟩
  · cases hto : st.timingObject <;> simp [handleData, hto]
  · cases hto : st.timingObject <;> simp [handleData, hto]

/-- A non-disconnected record refreshed 5s ago. -/
def freshBackedRecord : PeerLatency :=
  { id := peerA, latency := 0, lastUpdate := 5000, direction := Direction.incoming,
    disconnected := false, disconnectTime := none }

/-- Witness for the amended cleanup rule: the keep-rule at a concrete
record, the `pong` refresh, and the sync branches leaving the records
untouched, all at concrete inputs. -/
theorem cleanupKeep_nonDisconnected_iff_witness :
    (cleanupKeep 10000 backedConnections freshBackedRecord = true ↔
      ((mapGet backedConnections freshBackedRecord.id).isSome = true ∧
        10000 - freshBackedRecord.lastUpdate < STALE_WINDOW)) ∧
    ((handleData cexState connA (Msg.pong 900) 901 4).1.peerLatencies =
      cexState.peerLatencies.map (fun q =>
        if q.id == connA.peer then { q with latency := 901 - 900, lastUpdate := 901 }
        else q)) ∧
    ((handleData cexState connA (Msg.syncResponse syncedState peerB 900) 901 4).1.peerLatencies =
      cexState.peerLatencies) ∧
    ((handleData cexState connA (Msg.syncBroadcast syncedState peerB 900) 901 4).1.peerLatencies =
      cexState.peerLatencies) :=
  cleanupKeep_nonDisconnected_iff 10000 901 900 4 backedConnections freshBackedRecord
    cexState connA 900 syncedState peerB rfl

/-- Claim C9: a 5s sync tick sends the local clock's currently-queried
state as a `sync-broadcast` to every open connection when at least one
connection is open, and sends nothing at all when none is open. -/
theorem syncIntervalTick_spec (st : NodeState) (now : ℤ) (tnow : ℚ) (c : ClockState)
    (h : st.timingObject = some c) :
    (st.connections = [] → syncIntervalTick st now tnow = []) ∧
    (st.connections ≠ [] →
      syncIntervalTick st now tnow =
        st.connections.map (fun e =>
          Action.send e.2.handle (Msg.syncBroadcast (c.query tnow) st.localId now))) := by
  constructor
  · intro he
    simp [syncIntervalTick, he]
  · intro hne
    have hlen : 0 < st.connections.length := List.length_pos.mpr hne
    simp [syncIntervalTick, hlen, broadcastTimingState, h]

/-- Witness for the sync-tick theorem at a concrete one-connection state. -/
theorem syncIntervalTick_spec_witness :
    (exampleState.connections = [] → syncIntervalTick exampleState 1000 2 = []) ∧
    (exampleState.connections ≠ [] →
      syncIntervalTick exampleState 1000 2 =
        exampleState.connections.map (fun e =>
          Action.send e.2.handle
            (Msg.syncBroadcast ((initTimingObject 0).query 2) exampleState.localId 1000))) :=
  syncIntervalTick_spec exampleState 1000 2 (initTimingObject 0) rfl

/-- Claim C1: for two distinct namespaced peer ids attempting to connect to
each other concurrently, an incoming attempt is accepted only if the remote
id sorts at or below the local id and is closed otherwise; so exactly one
connection per unordered pair survives, labelled `outgoing` on the peer
whose id sorts lower and `incoming` on the peer whose id sorts higher. -/
theorem tie_break_single_edge (a b : String) (hab : a < b)
    (ha : startsWithTag a = true) (hb : startsWithTag b = true) :
    acceptIncoming b a = true ∧
    acceptIncoming a b = false ∧
    concurrentConnect a b = [(a, b)] ∧
    concurrentConnect b a = [(a, b)] ∧
    edgeDirectionAt (a, b) a = some Direction.outgoing ∧
    edgeDirectionAt (a, b) b = some Direction.incoming := by
  have hba : ¬ b < a := asymm hab
  have hne : a ≠ b := ne_of_lt hab
  refine ⟨?_, ?_, ?_, ?_, ?_, ?_⟩
  · simp [acceptIncoming, ha, hba]
  · simp [acceptIncoming, hb, hab]
  · simp [concurrentConnect, acceptIncoming, ha, hb, hab, hba]
  · simp [concurrentConnect, acceptIncoming, ha, hb, hab, hba]
  · simp [edgeDirectionAt]
  · simp [edgeDirectionAt, Ne.symm hne]

/-- Witness for the tie-break theorem at two concrete peer ids. -/
theorem tie_break_single_edge_witness :
    acceptIncoming peerB peerA = true ∧
    acceptIncoming peerA peerB = false ∧
    concurrentConnect peerA peerB = [(peerA, peerB)] ∧
    concurrentConnect peerB peerA = [(peerA, peerB)] ∧
    edgeDirectionAt (peerA, peerB) peerA = some Direction.outgoing ∧
    edgeDirectionAt (peerA, peerB) peerB = some Direction.incoming :=
  tie_break_single_edge peerA peerB
    (by rw [String.lt_iff_toList_lt]; decide) (by decide) (by decide)

/-- Claim C2: on receiving a `sync-response` the node applies the carried
state to its clock via `update`, records the last-timing-update record, and
relays the same state, source peer id and timestamp as a `sync-broadcast`
to exactly the open connections other than the one the message arrived on;
on receiving a `sync-broadcast` it applies the state and records the record
but sends nothing at all — no re-relay to any connection. -/
theorem syncResponse_relays_syncBroadcast_does_not (st : NodeState) (conn : Conn)
    (s : ClockState) (src : String) (ts now : ℤ) (tnow : ℚ) (c : ClockState)
    (h : st.timingObject = some c) :
    ((handleData st conn (Msg.syncResponse s src ts) now tnow).1.timingObject =
        some (c.update tnow (ClockVector.ofState s))) ∧
    ((handleData st conn (Msg.syncResponse s src ts) now tnow).1.lastTimingUpdate =
        some { timestamp := ts, peerId := if src == "" then conn.peer else src,
               position := s.position }) ∧
    ((handleData st conn (Msg.syncResponse s src ts) now tnow).2 =
        (st.connections.filter (fun e => e.2.handle != conn.handle)).map
          (fun e => Action.send e.2.handle (Msg.syncBroadcast s src ts))) ∧
    (∀ e ∈ st.connections, e.2.handle ≠ conn.handle →
        Action.send e.2.handle (Msg.syncBroadcast s src ts) ∈
          (handleData st conn (Msg.syncResponse s src ts) now tnow).2) ∧
    ((handleData st conn (Msg.syncBroadcast s src ts) now tnow).1.timingObject =
        some (c.update tnow (ClockVector.ofState s))) ∧
    ((handleData st conn (Msg.syncBroadcast s src ts) now tnow).1.lastTimingUpdate =
        some { timestamp := ts, peerId := if src == "" then conn.peer else src,
               position := s.position }) ∧
    ((handleData st conn (Msg.syncBroadcast s src ts) now tnow).2 = []) := by
  refine ⟨?_, ?_, ?_, ?_, ?_, ?_, ?_⟩
  · simp [handleData, h]
  · simp [handleData, h]
  · simp [handleData, h]
  · intro e he hne
    simp only [handleData, h]
    exact List.mem_map.mpr
      ⟨e, List.mem_filter.mpr ⟨he, by simpa [bne_iff_ne] using hne⟩, rfl⟩
  · simp [handleData, h]
  · simp [handleData, h]
  · simp [handleData, h]

/-- A two-connection node state: channels to `peerA` (handle 0) and `peerB`
(handle 7). -/
def twoConnState : NodeState :=
  { localId := "MENUSYNC_ccc"
    timingObject := some (initTimingObject 0)
    connections := [(peerA, { handle := 0, direction := Direction.incoming }),
                    (peerB, { handle := 7, direction := Direction.outgoing })]
    peerLatencies := []
    lastTimingUpdate := none }

/-- Witness for the relay theorem: a `sync-response` arriving on the channel
to `peerA` of a node that is also connected to `peerB`. -/
theorem syncResponse_relays_syncBroadcast_does_not_witness :
    ((handleData twoConnState connA (Msg.syncResponse syncedState peerB 900) 901 4).1.timingObject =
        some ((initTimingObject 0).update 4 (ClockVector.ofState syncedState))) ∧
    ((handleData twoConnState connA (Msg.syncResponse syncedState peerB 900) 901 4).1.lastTimingUpdate =
        some { timestamp := 900, peerId := if peerB == "" then connA.peer else peerB,
               position := syncedState.position }) ∧
    ((handleData twoConnState connA (Msg.syncResponse syncedState peerB 900) 901 4).2 =
        (twoConnState.connections.filter (fun e => e.2.handle != connA.handle)).map
          (fun e => Action.send e.2.handle (Msg.syncBroadcast syncedState peerB 900))) ∧
    (∀ e ∈ twoConnState.connections, e.2.handle ≠ connA.handle →
        Action.send e.2.handle (Msg.syncBroadcast syncedState peerB 900) ∈
          (handleData twoConnState connA (Msg.syncResponse syncedState peerB 900) 901 4).2) ∧
    ((handleData twoConnState connA (Msg.syncBroadcast syncedState peerB 900) 901 4).1.timingObject =
        some ((initTimingObject 0).update 4 (ClockVector.ofState syncedState))) ∧
    ((handleData twoConnState connA (Msg.syncBroadcast syncedState peerB 900) 901 4).1.lastTimingUpdate =
        some { timestamp := 900, peerId := if peerB == "" then connA.peer else peerB,
               position := syncedState.position }) ∧
    ((handleData twoConnState connA (Msg.syncBroadcast syncedState peerB 900) 901 4).2 = []) :=
  syncResponse_relays_syncBroadcast_does_not twoConnState connA syncedState peerB 900 901 4
    (initTimingObject 0) rfl

/-- Deleting never introduces a duplicate key. -/
theorem mapDelete_keysNodup (m : List (String × ConnInfo)) (k : String)
    (h : KeysNodup m) : KeysNodup (mapDelete m k) :=
  List.Nodup.sublist ((List.filter_sublist m).map (fun e => e.1)) h

/-- `Map.set` never introduces a duplicate key: it replaces in place, or
appends a key that was absent. -/
theorem mapSet_keysNodup (m : List (String × ConnInfo)) (k : String) (v : ConnInfo)
    (h : KeysNodup m) : KeysNodup (mapSet m k v) := by
  unfold mapSet KeysNodup
  by_cases hc : m.any (fun e => e.1 == k) = true
  · rw [if_pos hc]
    have hkeys : (m.map (fun e => if e.1 == k then (k, v) else e)).map (fun e => e.1) =
        m.map (fun e => e.1) := by
      rw [List.map_map]
      apply List.map_congr_left
      intro e _
      by_cases hek : e.1 = k
      · simp [Function.comp, hek]
      · simp [Function.comp, hek]
    rw [hkeys]
    exact h
  · rw [if_neg hc]
    rw [List.map_append, List.nodup_append]
    refine ⟨h, by simp, ?_⟩
    intro x hx hxk
    simp only [List.map_cons, List.map_nil, List.mem_singleton] at hxk
    subst hxk
    rcases List.mem_map.mp hx with ⟨e, he, hek⟩
    exact hc (List.any_eq_true.mpr ⟨e, he, by simp [hek]⟩)

/-- Claim C8: the connection table holds at most one entry per peer id and
every table operation preserves that invariant; moreover, setting up a new
connection to a peer that already has an entry closes the old channel and
deletes its entry (last-writer-wins) before the `open` handler can insert
the new one. -/
theorem connectionTable_unique_per_peer :
    (∀ (st : NodeState) (fr : Except String (List String)) (conn : Conn),
        KeysNodup st.connections → KeysNodup (setupConnection fr st conn).1.connections) ∧
    (∀ (st : NodeState) (conn : Conn) (dir : Direction) (now : ℤ),
        KeysNodup st.connections → KeysNodup (connOpen st conn dir now).1.connections) ∧
    (∀ (st : NodeState) (conn : Conn) (now : ℤ),
        KeysNodup st.connections → KeysNodup (connClose st conn now).1.connections) ∧
    (∀ (st : NodeState) (pid : String) (now : ℤ),
        KeysNodup st.connections → KeysNodup (disconnectUnregistered st pid now).1.connections) ∧
    (∀ (st : NodeState) (fr : Except String (List String)) (conn : Conn) (existing : ConnInfo),
        checkPeerRegistration fr conn.peer = true →
        mapGet st.connections conn.peer = some existing →
        (setupConnection fr st conn).1.connections = mapDelete st.connections conn.peer ∧
        (setupConnection fr st conn).2 =
          [Action.log (closingExistingLog conn.peer), Action.close existing.handle]) := by
  refine ⟨?_, ?_, ?_, ?_, ?_⟩
  · intro st fr conn h
    unfold setupConnection
    by_cases hr : checkPeerRegistration fr conn.peer = true
    · rw [hr]
      cases hg : mapGet st.connections conn.peer with
      | none => simpa using h
      | some existing => simpa using mapDelete_keysNodup st.connections conn.peer h
    · rw [Bool.not_eq_true] at hr
      rw [hr]
      simpa using h
  · intro st conn dir now h
    exact mapSet_keysNodup st.connections conn.peer _ h
  · intro st conn now h
    exact mapDelete_keysNodup st.connections conn.peer h
  · intro st pid now h
    unfold disconnectUnregistered
    cases hg : mapGet st.connections pid with
    | none => simpa using h
    | some existing => simpa using mapDelete_keysNodup st.connections pid h
  · intro st fr conn existing hr hg
    unfold setupConnection
    rw [hr, hg]
    exact ⟨rfl, rfl⟩

/-- The directory listing both peers, and a fresh channel object to `peerA`
(handle 3) while the table already holds handle 0 for `peerA`. -/
def fetchOk : Except String (List String) := Except.ok [peerA, peerB]

def connA2 : Conn := { peer := peerA, handle := 3 }

/-- Witness for the connection-table theorem: each operation applied at a
concrete state, and the last-writer-wins teardown on a duplicate setup. -/
theorem connectionTable_unique_per_peer_witness :
    KeysNodup (setupConnection fetchFail exampleState connB).1.connections ∧
    KeysNodup (connOpen exampleState connB Direction.outgoing 0).1.connections ∧
    KeysNodup (connClose exampleState connA 0).1.connections ∧
    KeysNodup (disconnectUnregistered exampleState peerA 0).1.connections ∧
    ((setupConnection fetchOk exampleState connA2).1.connections =
        mapDelete exampleState.connections peerA ∧
      (setupConnection fetchOk exampleState connA2).2 =
        [Action.log (closingExistingLog peerA),
         Action.close ({ handle := 0, direction := Direction.incoming } : ConnInfo).handle]) :=
  ⟨connectionTable_unique_per_peer.1 exampleState fetchFail connB (by decide),
   connectionTable_unique_per_peer.2.1 exampleState connB Direction.outgoing 0 (by decide),
   connectionTable_unique_per_peer.2.2.1 exampleState connA 0 (by decide),
   connectionTable_unique_per_peer.2.2.2.1 exampleState peerA 0 (by decide),
   connectionTable_unique_per_peer.2.2.2.2 exampleState fetchOk connA2
     { handle := 0, direction := Direction.incoming } (by decide) (by decide)⟩

end SyncDemo
